import Mathlib

/-!
Shallow embedding of `src/two_dee_shooter/src/main.rs` (Rust, ash/Vulkan + GLFW
bootstrap).  External library calls (GLFW, Vulkan driver) are modelled as
oracles packed into a `World` record; `mainRun` replays `main` against such a
world, producing the list of externally visible events and the outcome
(normal exit or panic with a diagnostic message).  The helper functions
(`find_queue_families`, `is_device_suitable`, `check_device_extension_support`,
`choose_swap_surface_format`, `build_extensions`, the swap-chain image-count
computation) are translated individually from the source.
-/

namespace TwoDee

/-- Vulkan constant `vk::PhysicalDeviceType::DISCRETE_GPU` (= 2). -/
def DISCRETE_GPU : Nat := 2

/-- Vulkan constant `vk::Format::B8G8R8A8_SRGB` (= 50). -/
def B8G8R8A8_SRGB : Nat := 50

/-- Vulkan constant `vk::ColorSpaceKHR::SRGB_NONLINEAR` (= 0). -/
def SRGB_NONLINEAR : Nat := 0

/-- GLFW constant `GLFW_CLIENT_API` (= 0x00022001). -/
def GLFW_CLIENT_API : Nat := 139265

/-- GLFW constant `GLFW_NO_API` (= 0). -/
def GLFW_NO_API : Nat := 0

/-- GLFW constant `GLFW_RESIZABLE` (= 0x00020003). -/
def GLFW_RESIZABLE : Nat := 131075

/-- GLFW constant `GLFW_FALSE` (= 0). -/
def GLFW_FALSE : Nat := 0

/-- `static WIDTH: i32 = 800;` (main.rs line 14). -/
def WIDTH : Int := 800

/-- `static HEIGHT: i32 = 600;` (main.rs line 15). -/
def HEIGHT : Int := 600

/-- The lazy-static `REQUIRED_EXTENSIONS` set (main.rs lines 17-23): a
one-element `HashSet` holding `"VK_KHR_swapchain"`, modelled as a list. -/
def REQUIRED_EXTENSIONS : List String := ["VK_KHR_swapchain"]

/-- One element of the vector returned by
`get_physical_device_queue_family_properties`: all `find_queue_families`
reads from it is whether `queue_flags & GRAPHICS == GRAPHICS`. -/
structure QueueFamilyProps where
  graphics : Bool
  deriving Repr, DecidableEq

/-- `struct QueueFamilyIndices` (main.rs lines 445-449). -/
structure QueueFamilyIndices where
  graphics_family : Option Nat := none
  present_family : Option Nat := none
  deriving Repr, DecidableEq

/-- `QueueFamilyIndices::is_complete` (main.rs lines 452-454). -/
def QueueFamilyIndices.is_complete (i : QueueFamilyIndices) : Bool :=
  i.graphics_family.isSome && i.present_family.isSome

/-- `vk::SurfaceFormatKHR`: the two fields read by
`choose_swap_surface_format`. -/
structure SurfaceFormat where
  format : Nat
  color_space : Nat
  deriving Repr, DecidableEq

/-- The fields of `vk::SurfaceCapabilitiesKHR` read by the image-count
computation in `create_swap_chain`. -/
structure SurfaceCapabilities where
  min_image_count : Nat
  max_image_count : Nat
  deriving Repr, DecidableEq

/-- One physical device as seen through the driver oracles: the properties,
features, queue families, per-queue-family surface-support query results,
device-extension enumeration and swap-chain support queries used by
`is_device_suitable` / `find_queue_families`.  An `Except.error` models a
failed (non-`VK_SUCCESS`) driver call. -/
structure PhysicalDeviceInfo where
  device_type : Nat
  geometry_shader : Nat
  device_name : String
  queue_families : List QueueFamilyProps
  surface_support : Nat → Except Unit Bool
  device_extensions : Except Unit (List String)
  surface_capabilities : Except Unit SurfaceCapabilities
  surface_formats : Except Unit (List SurfaceFormat)
  present_modes : Except Unit (List Nat)

/-- One iteration body of the `find_queue_families` loop (main.rs lines
467-485, before the break test): record `current_family_index` as the
graphics family when the family has the GRAPHICS bit, and record it as the
present family when the surface-support query call returns `Ok` (the source
checks `.is_ok()` on the `Result`, discarding the queried boolean). -/
def find_queue_families_step (support : Nat → Except Unit Bool)
    (current_family_index : Nat) (queue_family : QueueFamilyProps)
    (indices : QueueFamilyIndices) : QueueFamilyIndices :=
  let indices :=
    if queue_family.graphics then
      { indices with graphics_family := some current_family_index }
    else indices
  if (support current_family_index).isOk then
    { indices with present_family := some current_family_index }
  else indices

/-- The loop of `find_queue_families` (main.rs lines 457-488): walk the
queue-family list from `current_family_index`, run the step body, and break
as soon as the indices are complete. -/
def find_queue_families_loop (support : Nat → Except Unit Bool) :
    Nat → QueueFamilyIndices → List QueueFamilyProps → QueueFamilyIndices
  | _, indices, [] => indices
  | current_family_index, indices, queue_family :: rest =>
    let indices := find_queue_families_step support current_family_index queue_family indices
    if indices.is_complete then indices
    else find_queue_families_loop support (current_family_index + 1) indices rest

/-- `find_queue_families` (main.rs lines 457-488). -/
def find_queue_families (d : PhysicalDeviceInfo) : QueueFamilyIndices :=
  find_queue_families_loop d.surface_support 0 {} d.queue_families

/-- Instrumented variant of the `find_queue_families` loop that also records
the list of queue-family indices examined, in the order they are examined. -/
def find_queue_families_loop_trace (support : Nat → Except Unit Bool) :
    Nat → QueueFamilyIndices → List QueueFamilyProps →
      QueueFamilyIndices × List Nat
  | _, indices, [] => (indices, [])
  | current_family_index, indices, queue_family :: rest =>
    let indices := find_queue_families_step support current_family_index queue_family indices
    if indices.is_complete then (indices, [current_family_index])
    else
      let r := find_queue_families_loop_trace support (current_family_index + 1) indices rest
      (r.1, current_family_index :: r.2)

/-- The indices examined by `find_queue_families` on device `d`. -/
def find_queue_families_examined (d : PhysicalDeviceInfo) : List Nat :=
  (find_queue_families_loop_trace d.surface_support 0 {} d.queue_families).2

/-- The loop of `check_device_extension_support` (main.rs lines 518-533):
clone the required-extension set and remove each available extension name
from it; the device is adequate when the set ends up empty. -/
def check_device_extension_support_names (available : List String) : Bool :=
  (available.foldl (fun required name => required.erase name) REQUIRED_EXTENSIONS).isEmpty

/-- `check_device_extension_support` (main.rs lines 518-533): the enumeration
of device extensions is `unwrap`ped (panic on failure), then the required
set is drained by the available names. -/
def check_device_extension_support (d : PhysicalDeviceInfo) :
    Except String Bool :=
  match d.device_extensions with
  | .error _ => .error "called Result::unwrap on an Err value"
  | .ok available => .ok (check_device_extension_support_names available)

/-- `struct SwapChainSupportDetails` (main.rs lines 410-415). -/
structure SwapChainSupportDetails where
  capabilities : SurfaceCapabilities
  formats : List SurfaceFormat
  presentModes : List Nat
  deriving Repr, DecidableEq

/-- `query_swapchain_support` (main.rs lines 417-425): three driver queries,
each `unwrap`ped. -/
def query_swapchain_support (d : PhysicalDeviceInfo) :
    Except String SwapChainSupportDetails :=
  match d.surface_capabilities with
  | .error _ => .error "called Result::unwrap on an Err value"
  | .ok capabilities =>
    match d.surface_formats with
    | .error _ => .error "called Result::unwrap on an Err value"
    | .ok formats =>
      match d.present_modes with
      | .error _ => .error "called Result::unwrap on an Err value"
      | .ok presentModes => .ok ⟨capabilities, formats, presentModes⟩

/-- `is_device_suitable` (main.rs lines 490-516): a device is selected when
it is a discrete GPU with geometry-shader support, `find_queue_families`
finds complete indices, the required device extensions are supported, and
the swap-chain support has non-empty formats and present modes (only
queried when the extensions are supported). -/
def is_device_suitable (d : PhysicalDeviceInfo) : Except String Bool := do
  let extensions_supported ← check_device_extension_support d
  let swapchain_adequate ←
    if extensions_supported then do
      let swapchain_details ← query_swapchain_support d
      pure (!swapchain_details.formats.isEmpty && !swapchain_details.presentModes.isEmpty)
    else pure false
  pure ((decide (d.device_type = DISCRETE_GPU) && decide (d.geometry_shader > 0))
    && (find_queue_families d).is_complete
    && extensions_supported
    && swapchain_adequate)

/-- The physical-device selection loop of `main` (main.rs lines 188-193): a
mutable `Option` updated to `Some(device)` for every device that passes
`is_device_suitable`; a panic inside the suitability check propagates. -/
def select_physical_device_loop (selected : Option PhysicalDeviceInfo) :
    List PhysicalDeviceInfo → Except String (Option PhysicalDeviceInfo)
  | [] => .ok selected
  | d :: rest =>
    match is_device_suitable d with
    | .error e => .error e
    | .ok true => select_physical_device_loop (some d) rest
    | .ok false => select_physical_device_loop selected rest

/-- The selection loop started from `None` (main.rs line 188). -/
def select_physical_device (devices : List PhysicalDeviceInfo) :
    Except String (Option PhysicalDeviceInfo) :=
  select_physical_device_loop none devices

/-- Predicate of the preferred surface format (main.rs line 350):
`B8G8R8A8_SRGB` format with `SRGB_NONLINEAR` color space. -/
def preferred_format (f : SurfaceFormat) : Bool :=
  f.format == B8G8R8A8_SRGB && f.color_space == SRGB_NONLINEAR

/-- `choose_swap_surface_format` (main.rs lines 348-358): linear scan for the
preferred format, else `first().unwrap()` — `none` models the panic on an
empty list. -/
def choose_swap_surface_format (available_formats : List SurfaceFormat) :
    Option SurfaceFormat :=
  match available_formats.find? preferred_format with
  | some f => some f
  | none => available_formats.head?

/-- The requested swap-chain image count (main.rs lines 306-311):
`min_image_count + 1` in `u32` arithmetic, clamped down to
`max_image_count` when that bound is non-zero and exceeded. -/
def swap_chain_image_count (capabilities : SurfaceCapabilities) : Nat :=
  let image_count := (capabilities.min_image_count + 1) % 2 ^ 32
  if capabilities.max_image_count > 0 && image_count > capabilities.max_image_count then
    capabilities.max_image_count
  else image_count

/-- The pointer-walking loop of `build_extensions` (main.rs lines 545-550):
at iteration `n` (running from 1 to the extension count) it reads the
string at the current pointer offset and then advances the pointer by `n`
elements.  `arr i` is the string at offset `i` from the array base;
`remaining` counts the iterations left. -/
def build_extensions_loop (arr : Nat → String) :
    Nat → Nat → Nat → List String
  | _, _, 0 => []
  | n, ptr, remaining + 1 =>
    arr ptr :: build_extensions_loop arr (n + 1) (ptr + n) remaining

/-- The offsets read from the extension array by `build_extensions`. -/
def build_extensions_reads : Nat → Nat → Nat → List Nat
  | _, _, 0 => []
  | n, ptr, remaining + 1 => ptr :: build_extensions_reads (n + 1) (ptr + n) remaining

/-- `build_extensions` (main.rs lines 535-556): the strings gathered by the
loop, followed by `"VK_EXT_debug_utils"`. -/
def build_extensions (count : Nat) (arr : Nat → String) : List String :=
  build_extensions_loop arr 1 0 count ++ ["VK_EXT_debug_utils"]

/-- The native handles created and destroyed by `main`. -/
inductive Handle where
  | window
  | vkInstance
  | debugMessenger
  | surface
  | device
  deriving Repr, DecidableEq

/-- Externally visible events of a run of `main`, in program order. -/
inductive Ev where
  | glfwInit
  | createInstance
  | createDebugMessenger
  | windowHint (hint : Nat) (value : Nat)
  | createWindow (width : Int) (height : Int) (title : String)
  | createSurface
  | createDevice
  | pollEvents
  | destroyDevice
  | destroyDebugMessenger
  | destroySurface
  | destroyInstance
  | destroyWindow
  | glfwTerminate
  deriving Repr, DecidableEq

/-- The handle a destruction event releases, if any. -/
def Ev.destroyedHandle : Ev → Option Handle
  | .destroyDevice => some .device
  | .destroyDebugMessenger => some .debugMessenger
  | .destroySurface => some .surface
  | .destroyInstance => some .vkInstance
  | .destroyWindow => some .window
  | _ => none

/-- The handles destroyed during a trace, in destruction order. -/
def destructionOrder (t : List Ev) : List Handle :=
  t.filterMap Ev.destroyedHandle

/-- How a run of `main` ends: normal exit, or a Rust panic (from `panic!`,
`expect` or `unwrap`) aborting the process with a diagnostic message. -/
inductive Outcome where
  | exit
  | aborted (msg : String)
  deriving Repr, DecidableEq

/-- The oracle for every external (GLFW / Vulkan) call `main` performs, in a
single record.  `Except.error` (or a zero / null return where the source
checks for one) models a failed call. -/
structure World where
  glfw_init_result : Int
  instance_layers : Except Unit (List String)
  glfw_extension_count : Nat
  glfw_extensions : Nat → String
  create_instance_result : Except Unit Unit
  create_debug_messenger_result : Except Unit Unit
  physical_devices : Except Unit (List PhysicalDeviceInfo)
  create_window_ok : Bool
  create_surface_result : Int
  create_device_result : Except Unit Unit
  should_close : Nat → Bool

/-- `required_validation_layers` (main.rs lines 70-72). -/
def required_validation_layers : List String := ["VK_LAYER_KHRONOS_validation"]

/-- The inner scan of the validation-layer check (main.rs lines 79-87): a
mutable flag set when some available layer name equals the required one. -/
def layer_available (available_layers : List String) (required : String) : Bool :=
  available_layers.foldl (fun found layer_name => found || (layer_name == required)) false

/-- The event-poll loop (main.rs lines 269-271): while the close flag is
unset, poll events.  `should_close i` is the result of the `i`-th
`glfwWindowShouldClose` check; the value returned is the number of
`glfwPollEvents` calls performed, `none` when the fuel runs out before a
close request is observed. -/
def event_loop (should_close : Nat → Bool) : Nat → Nat → Option Nat
  | _, 0 => none
  | polls, fuel + 1 =>
    if should_close polls then some polls
    else event_loop should_close (polls + 1) fuel

/-- Replay of `fn main` (main.rs lines 29-293) against a world of oracle
results: a list of externally visible events plus the outcome, or `none`
when the event-loop fuel is exhausted before a close request.  The source
order is kept: GLFW init, instance-extension gathering, layer check,
instance creation, debug messenger, physical-device enumeration, window
hints and window creation, surface creation, device selection, queue-family
lookup, logical-device creation, event loop, teardown. -/
def mainRun (w : World) (fuel : Nat) : Option (List Ev × Outcome) :=
  let t0 := [Ev.glfwInit]
  if w.glfw_init_result = 0 then
    some (t0, .aborted "Failed to initialize GLFW.")
  else
    let _required_extensions := build_extensions w.glfw_extension_count w.glfw_extensions
    match w.instance_layers with
    | .error _ => some (t0, .aborted "Failed to retrieve available layers.")
    | .ok available_layers =>
      match required_validation_layers.find? (fun r => !layer_available available_layers r) with
      | some _ =>
        some (t0, .aborted "The required validation layer could not be found in the list of available layers.")
      | none =>
        match w.create_instance_result with
        | .error _ => some (t0, .aborted "Failed to create Vulkan instance.")
        | .ok _ =>
          let t1 := t0 ++ [Ev.createInstance]
          match w.create_debug_messenger_result with
          | .error _ => some (t1, .aborted "Failed to create Debug Utils Messenger")
          | .ok _ =>
            let t2 := t1 ++ [Ev.createDebugMessenger]
            match w.physical_devices with
            | .error _ => some (t2, .aborted "Failed to retrieve physical devices.")
            | .ok physical_devices =>
              let t3 := t2 ++ [Ev.windowHint GLFW_CLIENT_API GLFW_NO_API,
                               Ev.windowHint GLFW_RESIZABLE GLFW_FALSE]
              if !w.create_window_ok then
                some (t3, .aborted "Failed to create window.")
              else
                let t4 := t3 ++ [Ev.createWindow WIDTH HEIGHT "Two Dee Shooter"]
                if w.create_surface_result ≠ 0 then
                  some (t4, .aborted "Failed to create Window Surface!")
                else
                  let t5 := t4 ++ [Ev.createSurface]
                  match select_physical_device physical_devices with
                  | .error msg => some (t5, .aborted msg)
                  | .ok none => some (t5, .aborted "Failed to select a physical device!")
                  | .ok (some selected) =>
                    let indices := find_queue_families selected
                    match indices.graphics_family with
                    | none => some (t5, .aborted "called Option::unwrap on a None value")
                    | some _ =>
                      match indices.present_family with
                      | none => some (t5, .aborted "called Option::unwrap on a None value")
                      | some _ =>
                        match w.create_device_result with
                        | .error _ => some (t5, .aborted "Failed to create physical device.")
                        | .ok _ =>
                          let t6 := t5 ++ [Ev.createDevice]
                          match event_loop w.should_close 0 fuel with
                          | none => none
                          | some polls =>
                            some (t6 ++ List.replicate polls Ev.pollEvents ++
                              [Ev.destroyDevice, Ev.destroyDebugMessenger, Ev.destroySurface,
                               Ev.destroyInstance, Ev.destroyWindow, Ev.glfwTerminate], .exit)

/-- The events of a fully successful run, before the event loop. -/
def startup_events : List Ev :=
  [Ev.glfwInit, Ev.createInstance, Ev.createDebugMessenger,
   Ev.windowHint GLFW_CLIENT_API GLFW_NO_API,
   Ev.windowHint GLFW_RESIZABLE GLFW_FALSE,
   Ev.createWindow WIDTH HEIGHT "Two Dee Shooter",
   Ev.createSurface, Ev.createDevice]

/-- The teardown events of a successful run (main.rs lines 273-292). -/
def teardown_events : List Ev :=
  [Ev.destroyDevice, Ev.destroyDebugMessenger, Ev.destroySurface,
   Ev.destroyInstance, Ev.destroyWindow, Ev.glfwTerminate]

/-- The full trace of a successful run with `polls` event-poll iterations. -/
def exit_trace (polls : Nat) : List Ev :=
  startup_events ++ List.replicate polls Ev.pollEvents ++ teardown_events

/-- Concrete surface capabilities for test worlds. -/
def okCaps : SurfaceCapabilities := ⟨2, 4⟩

/-- A concrete physical device every suitability criterion accepts. -/
def goodDevice : PhysicalDeviceInfo where
  device_type := DISCRETE_GPU
  geometry_shader := 1
  device_name := "GPU0"
  queue_families := [⟨true⟩]
  surface_support := fun _ => .ok true
  device_extensions := .ok ["VK_KHR_swapchain"]
  surface_capabilities := .ok okCaps
  surface_formats := .ok [⟨B8G8R8A8_SRGB, SRGB_NONLINEAR⟩]
  present_modes := .ok [2]

/-- A world where every external call succeeds and the window close flag is
already set at the first check. -/
def okWorld : World where
  glfw_init_result := 1
  instance_layers := .ok ["VK_LAYER_KHRONOS_validation"]
  glfw_extension_count := 2
  glfw_extensions := fun _ => "VK_KHR_surface"
  create_instance_result := .ok ()
  create_debug_messenger_result := .ok ()
  physical_devices := .ok [goodDevice]
  create_window_ok := true
  create_surface_result := 0
  create_device_result := .ok ()
  should_close := fun _ => true

/-- Like `goodDevice`, but the surface-support query for queue family 0
fails (returns an error), while family 1 answers successfully. -/
def flakyDevice : PhysicalDeviceInfo :=
  { goodDevice with
    queue_families := [⟨true⟩, ⟨false⟩]
    surface_support := fun i => if i = 0 then .error () else .ok true }

/-- `okWorld` with `flakyDevice` as the only physical device: one external
call on the executed path fails, everything else succeeds. -/
def flakyWorld : World :=
  { okWorld with physical_devices := .ok [flakyDevice] }

/-- A device whose only queue family lacks the GRAPHICS bit and whose
surface-support query succeeds with the answer `false`. -/
def noSupportDevice : PhysicalDeviceInfo :=
  { goodDevice with
    queue_families := [⟨false⟩]
    surface_support := fun _ => .ok false }

/-- A loop construct of main.rs: its source line and whether it is the
blocking event-poll loop. -/
structure LoopSite where
  line : Nat
  descr : String
  is_event_poll : Bool
  deriving Repr, DecidableEq

/-- Every loop construct appearing in main.rs, in source order: the
validation-layer scans (lines 78, 81), the device-selection loop (189), the
queue-create-info loop (219), the event-poll loop (269), the format and
present-mode scans (349, 361), the queue-family scan (467), the
device-extension scan (527) and the GLFW extension walk (545). -/
def program_loops : List LoopSite :=
  [⟨78, "for each required validation layer", false⟩,
   ⟨81, "scan available layers", false⟩,
   ⟨189, "physical device selection", false⟩,
   ⟨219, "queue create info per family index", false⟩,
   ⟨269, "event poll loop", true⟩,
   ⟨349, "surface format scan", false⟩,
   ⟨361, "present mode scan", false⟩,
   ⟨467, "queue family scan", false⟩,
   ⟨527, "device extension scan", false⟩,
   ⟨545, "glfw required extension walk", false⟩]

/-- The window-creation events of a trace. -/
def window_creations (t : List Ev) : List Ev :=
  t.filter fun e =>
    match e with
    | .createWindow _ _ _ => true
    | _ => false

/-! ### Helper lemmas about the embedded loops -/

/-- When the event loop returns, the returned poll count is the first check
at which the close flag was set, and all earlier checks saw it unset. -/
lemma event_loop_some (sc : Nat → Bool) :
    ∀ (fuel i k : Nat), event_loop sc i fuel = some k →
      i ≤ k ∧ sc k = true ∧ ∀ j, i ≤ j → j < k → sc j = false := by
  intro fuel
  induction fuel with
  | zero => intro i k h; simp [event_loop] at h
  | succ n ih =>
    intro i k h
    simp only [event_loop] at h
    by_cases hsc : sc i = true
    · rw [if_pos hsc] at h
      obtain rfl : i = k := Option.some.inj h
      exact ⟨Nat.le_refl i, hsc, fun j hij hjk => absurd (Nat.lt_of_le_of_lt hij hjk) (Nat.lt_irrefl i)⟩
    · rw [if_neg hsc] at h
      obtain ⟨h1, h2, h3⟩ := ih (i + 1) k h
      refine ⟨by omega, h2, fun j hij hjk => ?_⟩
      rcases Nat.eq_or_lt_of_le hij with rfl | hlt
      · exact Bool.eq_false_iff.mpr hsc
      · exact h3 j (by omega) hjk

/-- When some check within the fuel bound reports a close request, the
event loop terminates. -/
lemma event_loop_total (sc : Nat → Bool) :
    ∀ (fuel i : Nat), (∃ n, i ≤ n ∧ n < i + fuel ∧ sc n = true) →
      ∃ k, event_loop sc i fuel = some k := by
  intro fuel
  induction fuel with
  | zero =>
    intro i h
    obtain ⟨n, h1, h2, _⟩ := h
    omega
  | succ m ih =>
    intro i h
    obtain ⟨n, h1, h2, h3⟩ := h
    simp only [event_loop]
    by_cases hsc : sc i = true
    · exact ⟨i, by rw [if_pos hsc]⟩
    · rw [if_neg hsc]
      apply ih
      refine ⟨n, ?_, by omega, h3⟩
      rcases Nat.eq_or_lt_of_le h1 with rfl | hlt
      · exact absurd h3 hsc
      · omega

/-- The selection loop only ever returns a device that passed the
suitability check (invariant on the accumulator). -/
lemma select_loop_suitable :
    ∀ (devices : List PhysicalDeviceInfo) (acc : Option PhysicalDeviceInfo)
      (d : PhysicalDeviceInfo),
      (∀ a, acc = some a → is_device_suitable a = .ok true) →
      select_physical_device_loop acc devices = .ok (some d) →
      is_device_suitable d = .ok true := by
  intro devices
  induction devices with
  | nil =>
    intro acc d hacc h
    simp only [select_physical_device_loop] at h
    exact hacc d (Except.ok.inj h)
  | cons x rest ih =>
    intro acc d hacc h
    simp only [select_physical_device_loop] at h
    split at h
    · exact absurd h (by simp)
    · refine ih _ d (fun a ha => ?_) h
      obtain rfl : x = a := Option.some.inj ha
      assumption
    · exact ih _ d hacc h

/-- Once a suitable device is in the accumulator and all later checks
succeed, the loop ends with some selected device. -/
lemma select_loop_keeps_some :
    ∀ (devices : List PhysicalDeviceInfo) (a : PhysicalDeviceInfo),
      (∀ d ∈ devices, (is_device_suitable d).isOk = true) →
      ∃ d, select_physical_device_loop (some a) devices = .ok (some d) := by
  intro devices
  induction devices with
  | nil => intro a _; exact ⟨a, rfl⟩
  | cons x rest ih =>
    intro a hok
    simp only [select_physical_device_loop]
    split
    · next e heq =>
      have := hok x (by simp)
      rw [heq] at this
      simp [Except.isOk, Except.toBool] at this
    · exact ih x fun d hd => hok d (by simp [hd])
    · exact ih a fun d hd => hok d (by simp [hd])

/-- If every suitability check succeeds and some device is suitable, the
selection loop ends with some selected device. -/
lemma select_loop_exists :
    ∀ (devices : List PhysicalDeviceInfo) (acc : Option PhysicalDeviceInfo),
      (∀ d ∈ devices, (is_device_suitable d).isOk = true) →
      (∃ d ∈ devices, is_device_suitable d = .ok true) →
      ∃ d, select_physical_device_loop acc devices = .ok (some d) := by
  intro devices
  induction devices with
  | nil =>
    intro acc _ h
    simp at h
  | cons x rest ih =>
    intro acc hok hex
    simp only [select_physical_device_loop]
    split
    · next e heq =>
      have := hok x (by simp)
      rw [heq] at this
      simp [Except.isOk, Except.toBool] at this
    · exact select_loop_keeps_some rest x fun d hd => hok d (by simp [hd])
    · next heq =>
      obtain ⟨d, hd, hsuit⟩ := hex
      rcases List.mem_cons.mp hd with rfl | hdrest
      · rw [heq] at hsuit
        exact absurd (Except.ok.inj hsuit) (by simp)
      · exact ih acc (fun d hd => hok d (by simp [hd])) ⟨d, hdrest, hsuit⟩

/-- If no device is suitable and every check succeeds, the loop returns the
accumulator unchanged. -/
lemma select_loop_all_false :
    ∀ (devices : List PhysicalDeviceInfo) (acc : Option PhysicalDeviceInfo),
      (∀ d ∈ devices, is_device_suitable d = .ok false) →
      select_physical_device_loop acc devices = .ok acc := by
  intro devices
  induction devices with
  | nil => intro acc _; rfl
  | cons x rest ih =>
    intro acc hall
    simp only [select_physical_device_loop]
    split
    · next e heq =>
      have := hall x (by simp)
      rw [heq] at this
      exact absurd this (by simp)
    · next heq =>
      have := hall x (by simp)
      rw [heq] at this
      exact absurd (Except.ok.inj this) (by simp)
    · exact ih acc fun d hd => hall d (by simp [hd])

/-- Folding `erase` over the available names starting from the empty
required set stays empty. -/
lemma foldl_erase_nil (available : List String) :
    available.foldl (fun required name => required.erase name) ([] : List String) = [] := by
  induction available with
  | nil => rfl
  | cons n rest ih => simpa [List.erase_nil] using ih

/-- Draining a one-element required set by the available names empties it
exactly when the required name is among the available ones. -/
lemma foldl_erase_singleton (s : String) (available : List String) :
    ((available.foldl (fun required name => required.erase name) [s]).isEmpty = true
      ↔ s ∈ available) := by
  induction available with
  | nil => simp [List.isEmpty]
  | cons n rest ih =>
    simp only [List.foldl_cons]
    by_cases h : s = n
    · subst h
      rw [show ([s].erase s) = [] from by simp [List.erase_cons]]
      rw [foldl_erase_nil]
      simp
    · rw [show ([s].erase n) = [s] from by simp [List.erase_cons, h]]
      rw [ih]
      simp [h]

/-- The single-pass extension check succeeds exactly when every required
device extension is among the available extension names. -/
lemma check_names_iff (available : List String) :
    check_device_extension_support_names available = true
      ↔ ∀ r ∈ REQUIRED_EXTENSIONS, r ∈ available := by
  unfold check_device_extension_support_names REQUIRED_EXTENSIONS
  rw [foldl_erase_singleton]
  simp

/-- The step body only ever records the current index as graphics family. -/
lemma fqf_step_graphics_lt (support : Nat → Except Unit Bool) (i : Nat)
    (qf : QueueFamilyProps) (acc : QueueFamilyIndices)
    (hacc : ∀ j, acc.graphics_family = some j → j < i) :
    ∀ j, (find_queue_families_step support i qf acc).graphics_family = some j → j < i + 1 := by
  intro j hj
  simp only [find_queue_families_step] at hj
  split at hj <;> split at hj <;> simp_all <;> omega

/-- The step body only ever records the current index as present family. -/
lemma fqf_step_present_lt (support : Nat → Except Unit Bool) (i : Nat)
    (qf : QueueFamilyProps) (acc : QueueFamilyIndices)
    (hacc : ∀ j, acc.present_family = some j → j < i) :
    ∀ j, (find_queue_families_step support i qf acc).present_family = some j → j < i + 1 := by
  intro j hj
  simp only [find_queue_families_step] at hj
  split at hj <;> split at hj <;> simp_all <;> omega

/-- Any index the queue-family loop returns is below the start index plus
the number of remaining families. -/
lemma fqf_loop_lt (support : Nat → Except Unit Bool) :
    ∀ (qfs : List QueueFamilyProps) (i : Nat) (acc : QueueFamilyIndices),
      (∀ j, acc.graphics_family = some j → j < i) →
      (∀ j, acc.present_family = some j → j < i) →
      (∀ j, (find_queue_families_loop support i acc qfs).graphics_family = some j →
         j < i + qfs.length) ∧
      (∀ j, (find_queue_families_loop support i acc qfs).present_family = some j →
         j < i + qfs.length) := by
  intro qfs
  induction qfs with
  | nil =>
    intro i acc hg hp
    simp only [find_queue_families_loop, List.length_nil, Nat.add_zero]
    exact ⟨hg, hp⟩
  | cons qf rest ih =>
    intro i acc hg hp
    simp only [find_queue_families_loop, List.length_cons]
    have hg1 := fqf_step_graphics_lt support i qf acc hg
    have hp1 := fqf_step_present_lt support i qf acc hp
    by_cases hc : (find_queue_families_step support i qf acc).is_complete = true
    · rw [if_pos hc]
      exact ⟨fun j hj => by have := hg1 j hj; omega,
             fun j hj => by have := hp1 j hj; omega⟩
    · rw [if_neg hc]
      obtain ⟨h1, h2⟩ := ih (i + 1) (find_queue_families_step support i qf acc) hg1 hp1
      exact ⟨fun j hj => by have := h1 j hj; omega,
             fun j hj => by have := h2 j hj; omega⟩

/-- The instrumented queue-family loop computes the same indices as the
plain one. -/
lemma fqf_trace_fst (support : Nat → Except Unit Bool) :
    ∀ (qfs : List QueueFamilyProps) (i : Nat) (acc : QueueFamilyIndices),
      (find_queue_families_loop_trace support i acc qfs).1 =
        find_queue_families_loop support i acc qfs := by
  intro qfs
  induction qfs with
  | nil => intro i acc; rfl
  | cons qf rest ih =>
    intro i acc
    simp only [find_queue_families_loop_trace, find_queue_families_loop]
    by_cases hc : (find_queue_families_step support i qf acc).is_complete = true
    · rw [if_pos hc, if_pos hc]
    · rw [if_neg hc, if_neg hc]
      exact ih (i + 1) _

/-- The examined indices form a contiguous run starting at the start index
and not longer than the list of queue families. -/
lemma fqf_trace_range (support : Nat → Except Unit Bool) :
    ∀ (qfs : List QueueFamilyProps) (i : Nat) (acc : QueueFamilyIndices),
      ∃ k, k ≤ qfs.length ∧
        (find_queue_families_loop_trace support i acc qfs).2 = List.range' i k := by
  intro qfs
  induction qfs with
  | nil => intro i acc; exact ⟨0, Nat.le_refl 0, rfl⟩
  | cons qf rest ih =>
    intro i acc
    simp only [find_queue_families_loop_trace, List.length_cons]
    by_cases hc : (find_queue_families_step support i qf acc).is_complete = true
    · rw [if_pos hc]
      exact ⟨1, by omega, by simp [List.range'_one]⟩
    · rw [if_neg hc]
      obtain ⟨k, hk, hr⟩ := ih (i + 1) (find_queue_families_step support i qf acc)
      exact ⟨k + 1, by omega, by simp [List.range'_succ, hr]⟩

/-- A run of `main` that exits normally went through device enumeration,
selected a device, observed a close request after `polls` polls, and its
trace is the canonical startup / poll / teardown sequence. -/
lemma mainRun_exit_char (w : World) (fuel : Nat) (t : List Ev)
    (h : mainRun w fuel = some (t, Outcome.exit)) :
    ∃ polls devices selected,
      w.physical_devices = .ok devices ∧
      select_physical_device devices = .ok (some selected) ∧
      event_loop w.should_close 0 fuel = some polls ∧
      t = exit_trace polls := by
  simp only [mainRun] at h
  split at h
  · simp at h
  split at h
  · simp at h
  split at h
  · simp at h
  split at h
  · simp at h
  split at h
  · simp at h
  split at h
  · simp at h
  split at h
  · simp at h
  split at h
  · simp at h
  split at h
  · simp at h
  · simp at h
  split at h
  · simp at h
  split at h
  · simp at h
  split at h
  · simp at h
  split at h
  · simp at h
  simp only [Option.some.injEq, Prod.mk.injEq] at h
  obtain ⟨ht, -⟩ := h
  refine ⟨_, _, _, by assumption, by assumption, by assumption, ?_⟩
  rw [← ht]
  simp [exit_trace, startup_events, teardown_events]

/-- Poll events destroy no handle. -/
lemma filterMap_destroyed_replicate (n : Nat) :
    List.filterMap Ev.destroyedHandle (List.replicate n Ev.pollEvents) = [] := by
  induction n with
  | zero => rfl
  | succ m ih => simp [List.replicate_succ, Ev.destroyedHandle, ih]

/-- The handles of a successful run are destroyed in the fixed order
logical device, debug messenger, surface, instance, window. -/
lemma destructionOrder_exit_trace (polls : Nat) :
    destructionOrder (exit_trace polls) =
      [Handle.device, Handle.debugMessenger, Handle.surface,
       Handle.vkInstance, Handle.window] := by
  simp [destructionOrder, exit_trace, startup_events, teardown_events,
    List.filterMap_append, filterMap_destroyed_replicate, Ev.destroyedHandle]

/-- `window_creations` distributes over concatenation. -/
lemma window_creations_append (a b : List Ev) :
    window_creations (a ++ b) = window_creations a ++ window_creations b :=
  List.filter_append a b

/-- Poll events are not window creations. -/
lemma window_creations_replicate (n : Nat) :
    window_creations (List.replicate n Ev.pollEvents) = [] := by
  induction n with
  | zero => rfl
  | succ m ih => simp [List.replicate_succ, window_creations, ih]

/-! ### Claim theorems -/

/-- C1: physical-device selection is a filter-and-pick over the enumerated
list: when every suitability query succeeds, if some device satisfies the
suitability predicate then the selection loop ends with a selected device
satisfying it, and if no device satisfies it the loop selects nothing and
no completed run of `main` over that device list exits normally (the
process aborts). -/
theorem C1_device_selection (devices : List PhysicalDeviceInfo)
    (hok : ∀ d ∈ devices, (is_device_suitable d).isOk = true) :
    ((∃ d ∈ devices, is_device_suitable d = .ok true) →
      ∃ d, select_physical_device devices = .ok (some d) ∧
        is_device_suitable d = .ok true)
    ∧ ((∀ d ∈ devices, is_device_suitable d = .ok false) →
      select_physical_device devices = .ok none ∧
      ∀ (w : World) (fuel : Nat) (t : List Ev) (o : Outcome),
        w.physical_devices = .ok devices →
        mainRun w fuel = some (t, o) → o ≠ Outcome.exit) := by
  constructor
  · intro hex
    obtain ⟨d, hd⟩ := select_loop_exists devices none hok hex
    exact ⟨d, hd, select_loop_suitable devices none d (by simp) hd⟩
  · intro hall
    have h0 : select_physical_device devices = .ok none :=
      select_loop_all_false devices none hall
    refine ⟨h0, ?_⟩
    intro w fuel t o hpd hrun ho
    subst ho
    obtain ⟨polls, devs, sel, hdevs, hsel, -, -⟩ := mainRun_exit_char w fuel t hrun
    rw [hpd] at hdevs
    obtain rfl : devices = devs := Except.ok.inj hdevs
    rw [h0] at hsel
    exact absurd (Except.ok.inj hsel) (by simp)

/-- Witness for C1 at a concrete one-device list. -/
theorem C1_device_selection_witness :
    ∃ d, select_physical_device [goodDevice] = .ok (some d) ∧
      is_device_suitable d = .ok true :=
  (C1_device_selection [goodDevice]
      (fun d hd => by rw [List.mem_singleton.mp hd]; rfl)).1
    ⟨goodDevice, List.mem_singleton.mpr rfl, rfl⟩

/-- C2: contrary to the claim, a failed external call can be silently
recovered from: in `flakyWorld` the surface-support query for queue family
0 of the only device returns an error, yet the program completes a normal
run (the loop in `find_queue_families` treats the failed query as absence
of present support for that family and carries on). -/
theorem C2_failure_not_fatal :
    flakyDevice.surface_support 0 = .error () ∧
    mainRun flakyWorld 1 = some (exit_trace 0, Outcome.exit) :=
  ⟨rfl, rfl⟩

/-- C4: contrary to the claim, `find_queue_families` records a present
family whose surface-support query succeeded with the answer `false`: the
loop checks only that the query call returned `Ok`. -/
theorem C4_present_without_support :
    noSupportDevice.surface_support 0 = .ok false ∧
    (find_queue_families noSupportDevice).present_family = some 0 :=
  ⟨rfl, rfl⟩

/-- A concrete three-string extension array for exercising the
`build_extensions` pointer walk. -/
def c5_strings : Nat → String := fun i =>
  if i = 0 then "glfw0" else if i = 1 then "glfw1"
  else if i = 2 then "glfw2" else "out-of-bounds"

/-- C5: contrary to the claim, for a count of 3 the pointer walk of
`build_extensions` reads offsets 0, 1 and 3 — offset 3 is outside the
valid range 0..2 — and the returned list contains the string at offset 3
instead of the third extension. -/
theorem C5_extension_walk :
    build_extensions 3 c5_strings =
      ["glfw0", "glfw1", "out-of-bounds", "VK_EXT_debug_utils"] ∧
    build_extensions 3 c5_strings ≠
      ["glfw0", "glfw1", "glfw2", "VK_EXT_debug_utils"] ∧
    build_extensions_reads 1 0 3 = [0, 1, 3] ∧ ¬(3 < 3) :=
  ⟨rfl, by decide, rfl, by omega⟩

/-- C6: surface-format matching is a linear scan: for a non-empty format
list the result splits the list as `pre ++ f :: post` where `f` is the
returned format, everything before it fails the preferred-format test, and
`f` is either preferred or (when nothing is) the first element. -/
theorem C6_surface_format_scan (l : List SurfaceFormat) (hne : l ≠ []) :
    ∃ pre f post, l = pre ++ f :: post ∧
      choose_swap_surface_format l = some f ∧
      (∀ g ∈ pre, preferred_format g = false) ∧
      (preferred_format f = true ∨
        (pre = [] ∧ ∀ g ∈ l, preferred_format g = false)) := by
  induction l with
  | nil => exact absurd rfl hne
  | cons a rest ih =>
    by_cases ha : preferred_format a = true
    · refine ⟨[], a, rest, rfl, ?_, by simp, Or.inl ha⟩
      simp [choose_swap_surface_format, List.find?_cons, ha]
    · cases hf : rest.find? preferred_format with
      | some f =>
        have hrest : rest ≠ [] := by
          intro hr
          rw [hr] at hf
          simp at hf
        obtain ⟨pre, f2, post, hsplit, hch, hpre, -⟩ := ih hrest
        have hch2 : choose_swap_surface_format rest = some f := by
          simp [choose_swap_surface_format, hf]
        rw [hch] at hch2
        obtain rfl : f2 = f := Option.some.inj hch2
        refine ⟨a :: pre, f2, post, by simp [hsplit], ?_, ?_, Or.inl (List.find?_some hf)⟩
        · simp [choose_swap_surface_format, List.find?_cons, ha, hf]
        · intro g hg
          rcases List.mem_cons.mp hg with rfl | h2
          · exact Bool.eq_false_iff.mpr ha
          · exact hpre g h2
      | none =>
        refine ⟨[], a, rest, rfl, ?_, by simp, Or.inr ⟨rfl, ?_⟩⟩
        · simp [choose_swap_surface_format, List.find?_cons, ha, hf]
        · intro g hg
          rcases List.mem_cons.mp hg with rfl | h2
          · exact Bool.eq_false_iff.mpr ha
          · exact Bool.eq_false_iff.mpr (List.find?_eq_none.mp hf g h2)

/-- Witness for C6 at a concrete two-format list whose second entry is the
preferred one. -/
theorem C6_surface_format_scan_witness :
    ∃ pre f post,
      ([⟨0, 0⟩, ⟨B8G8R8A8_SRGB, SRGB_NONLINEAR⟩] : List SurfaceFormat) =
        pre ++ f :: post ∧
      choose_swap_surface_format [⟨0, 0⟩, ⟨B8G8R8A8_SRGB, SRGB_NONLINEAR⟩] = some f ∧
      (∀ g ∈ pre, preferred_format g = false) ∧
      (preferred_format f = true ∨
        (pre = [] ∧
          ∀ g ∈ ([⟨0, 0⟩, ⟨B8G8R8A8_SRGB, SRGB_NONLINEAR⟩] : List SurfaceFormat),
            preferred_format g = false)) :=
  C6_surface_format_scan [⟨0, 0⟩, ⟨B8G8R8A8_SRGB, SRGB_NONLINEAR⟩] (by simp)

/-- C7 counterexample: the event-poll loop is not the only loop in the
program; main.rs contains further (bounded) loops. -/
theorem C7_counterexample :
    ∃ l ∈ program_loops, l.is_event_poll = false := by decide

/-- C7 amended: the only event-poll loop among the ten loops of the program
is the while loop of `main`; it polls exactly until the first close
request (every earlier check saw the flag unset), it terminates whenever a
close request arrives within the fuel bound, and a normally exiting run
places the whole teardown after the polls. -/
theorem C7_event_loop_amended :
    (∀ (sc : Nat → Bool) (fuel k : Nat), event_loop sc 0 fuel = some k →
      sc k = true ∧ ∀ j, j < k → sc j = false)
    ∧ (∀ (sc : Nat → Bool) (fuel : Nat), (∃ n, n < fuel ∧ sc n = true) →
      ∃ k, event_loop sc 0 fuel = some k)
    ∧ (program_loops.filter (fun l => l.is_event_poll)).length = 1
    ∧ program_loops.length = 10
    ∧ (∀ (w : World) (fuel : Nat) (t : List Ev),
        mainRun w fuel = some (t, Outcome.exit) →
        ∃ polls, event_loop w.should_close 0 fuel = some polls ∧
          t = startup_events ++ List.replicate polls Ev.pollEvents ++ teardown_events) := by
  refine ⟨?_, ?_, by decide, by decide, ?_⟩
  · intro sc fuel k h
    obtain ⟨-, h2, h3⟩ := event_loop_some sc fuel 0 k h
    exact ⟨h2, fun j hj => h3 j (Nat.zero_le j) hj⟩
  · intro sc fuel h
    obtain ⟨n, h1, h2⟩ := h
    exact event_loop_total sc fuel 0 ⟨n, Nat.zero_le n, by omega, h2⟩
  · intro w fuel t h
    obtain ⟨polls, devs, sel, -, -, hloop, ht⟩ := mainRun_exit_char w fuel t h
    exact ⟨polls, hloop, ht⟩

/-- Witness for C7 at a concrete close-flag stream that first reports a
close request at the third check. -/
theorem C7_event_loop_witness :
    (fun n => n == 2) 2 = true ∧ ∀ j, j < 2 → (fun n => n == 2) j = false :=
  C7_event_loop_amended.1 (fun n => n == 2) 5 2 rfl

/-- C8: a normally exiting run creates exactly one window, with width 800,
height 600 and title "Two Dee Shooter", after a hint disabling resizing;
all five native handles are destroyed, and the whole teardown comes after
the event loop. -/
theorem C8_single_window (w : World) (fuel : Nat) (t : List Ev)
    (h : mainRun w fuel = some (t, Outcome.exit)) :
    window_creations t = [Ev.createWindow WIDTH HEIGHT "Two Dee Shooter"] ∧
    Ev.windowHint GLFW_RESIZABLE GLFW_FALSE ∈ t ∧
    (∀ hd : Handle, hd ∈ destructionOrder t) ∧
    ∃ polls, t = startup_events ++ List.replicate polls Ev.pollEvents ++ teardown_events := by
  obtain ⟨polls, devs, sel, -, -, -, ht⟩ := mainRun_exit_char w fuel t h
  subst ht
  refine ⟨?_, ?_, ?_, polls, rfl⟩
  · simp only [exit_trace]
    rw [window_creations_append, window_creations_append, window_creations_replicate]
    rfl
  · simp [exit_trace, startup_events]
  · intro hd
    rw [destructionOrder_exit_trace polls]
    cases hd <;> simp

/-- Witness for C8 on the concrete successful run. -/
theorem C8_single_window_witness :
    window_creations (exit_trace 0) =
      [Ev.createWindow WIDTH HEIGHT "Two Dee Shooter"] ∧
    Ev.windowHint GLFW_RESIZABLE GLFW_FALSE ∈ exit_trace 0 ∧
    (∀ hd : Handle, hd ∈ destructionOrder (exit_trace 0)) ∧
    ∃ polls, exit_trace 0 =
      startup_events ++ List.replicate polls Ev.pollEvents ++ teardown_events :=
  C8_single_window okWorld 1 (exit_trace 0) rfl

/-- C9 counterexample: the queue-family scan does not abort on a failing
external call: on `flakyDevice` the surface-support query for family 0
fails, yet `find_queue_families` handles it by continuing the scan (family
1 becomes the present family) and the whole run still exits normally, so
aborting is not the only failure handling in these scans. -/
theorem C9_counterexample :
    flakyDevice.surface_support 0 = .error () ∧
    find_queue_families flakyDevice =
      { graphics_family := some 0, present_family := some 1 } ∧
    mainRun flakyWorld 1 = some (exit_trace 0, Outcome.exit) :=
  ⟨rfl, rfl, rfl⟩

/-- C9 amended: the queue-family lookup examines a contiguous run of
indices 0..k-1 (each at most once, in increasing order, never past the end
of the list), the instrumented loop agrees with the plain one, every
returned index is a valid index into the queue-family list, and the
extension check is a single pass whose outcome is exactly "every required
extension is among the available names"; neither retries, and failures
abort — a failed extension enumeration propagates out of the suitability
check as an abort which no completed run of `main` survives — except that
`find_queue_families` handles a failed surface-support query by leaving
the present family unchanged and continuing the scan. -/
theorem C9_single_pass_scans :
    (∀ d : PhysicalDeviceInfo, ∃ k, k ≤ d.queue_families.length ∧
      find_queue_families_examined d = List.range k)
    ∧ (∀ d : PhysicalDeviceInfo,
      (find_queue_families_loop_trace d.surface_support 0 {} d.queue_families).1 =
        find_queue_families d)
    ∧ (∀ (d : PhysicalDeviceInfo) (i : Nat),
      (find_queue_families d).graphics_family = some i → i < d.queue_families.length)
    ∧ (∀ (d : PhysicalDeviceInfo) (i : Nat),
      (find_queue_families d).present_family = some i → i < d.queue_families.length)
    ∧ (∀ available : List String,
      check_device_extension_support_names available = true ↔
        ∀ r ∈ REQUIRED_EXTENSIONS, r ∈ available)
    ∧ (∀ (support : Nat → Except Unit Bool) (i : Nat) (qf : QueueFamilyProps)
        (acc : QueueFamilyIndices), (support i).isOk = false →
      (find_queue_families_step support i qf acc).present_family = acc.present_family)
    ∧ (∀ d : PhysicalDeviceInfo, d.device_extensions.isOk = false →
      ∃ m, is_device_suitable d = .error m)
    ∧ (∀ (w : World) (fuel : Nat) (t : List Ev) (o : Outcome)
        (devices : List PhysicalDeviceInfo) (m : String),
      w.physical_devices = .ok devices →
      select_physical_device devices = .error m →
      mainRun w fuel = some (t, o) → o ≠ Outcome.exit) := by
  refine ⟨?_, ?_, ?_, ?_, check_names_iff, ?_, ?_, ?_⟩
  · intro d
    obtain ⟨k, hk, hr⟩ := fqf_trace_range d.surface_support d.queue_families 0 {}
    exact ⟨k, hk, by rw [find_queue_families_examined, hr, List.range_eq_range']⟩
  · intro d
    exact fqf_trace_fst d.surface_support d.queue_families 0 {}
  · intro d i h
    have := (fqf_loop_lt d.surface_support d.queue_families 0 {}
      (fun j hj => by simp at hj) (fun j hj => by simp at hj)).1 i h
    simpa using this
  · intro d i h
    have := (fqf_loop_lt d.surface_support d.queue_families 0 {}
      (fun j hj => by simp at hj) (fun j hj => by simp at hj)).2 i h
    simpa using this
  · intro support i qf acc hfail
    simp only [find_queue_families_step]
    rw [if_neg (by simp [hfail])]
    by_cases hg : qf.graphics = true <;> simp [hg]
  · intro d hfail
    rcases hexts : d.device_extensions with e | available
    · exact ⟨"called Result::unwrap on an Err value",
        by simp [is_device_suitable, check_device_extension_support, hexts,
          Bind.bind, Except.bind]⟩
    · rw [hexts] at hfail
      simp [Except.isOk, Except.toBool] at hfail
  · intro w fuel t o devices m hpd hsel hrun ho
    subst ho
    obtain ⟨polls, devs, sel, hdevs, hsel2, -, -⟩ := mainRun_exit_char w fuel t hrun
    rw [hpd] at hdevs
    obtain rfl : devices = devs := Except.ok.inj hdevs
    rw [hsel] at hsel2
    exact Except.noConfusion hsel2

/-- Witness for C9 on the concrete good device. -/
theorem C9_single_pass_scans_witness :
    (0 : Nat) < goodDevice.queue_families.length :=
  C9_single_pass_scans.2.2.1 goodDevice 0 rfl

/-- C10: with exact u32 arithmetic the requested swap-chain image count is
`min_image_count + 1`, capped to `max_image_count` when that bound is
non-zero and exceeded; whenever the bound is non-zero and consistent, the
count lies between `min_image_count` and `max_image_count`. -/
theorem C10_image_count (capabilities : SurfaceCapabilities)
    (hnof : capabilities.min_image_count + 1 < 2 ^ 32) :
    (swap_chain_image_count capabilities =
      if capabilities.max_image_count > 0 ∧
          capabilities.min_image_count + 1 > capabilities.max_image_count
        then capabilities.max_image_count
        else capabilities.min_image_count + 1)
    ∧ (0 < capabilities.max_image_count →
      capabilities.min_image_count ≤ capabilities.max_image_count →
      capabilities.min_image_count ≤ swap_chain_image_count capabilities ∧
      swap_chain_image_count capabilities ≤ capabilities.max_image_count) := by
  have h0 : swap_chain_image_count capabilities =
      if capabilities.max_image_count > 0 ∧
          capabilities.min_image_count + 1 > capabilities.max_image_count
        then capabilities.max_image_count
        else capabilities.min_image_count + 1 := by
    simp only [swap_chain_image_count, Nat.mod_eq_of_lt hnof]
    by_cases hmax : capabilities.max_image_count > 0
    · by_cases hgt : capabilities.min_image_count + 1 > capabilities.max_image_count
      · simp [hmax, hgt]
      · simp [hmax, hgt]
    · simp [hmax]
  refine ⟨h0, fun hpos hle => ?_⟩
  rw [h0]
  split_ifs with hcase
  · omega
  · omega

/-- Witness for C10 at the concrete capabilities of the test world. -/
theorem C10_image_count_witness :
    (swap_chain_image_count okCaps =
      if okCaps.max_image_count > 0 ∧
          okCaps.min_image_count + 1 > okCaps.max_image_count
        then okCaps.max_image_count
        else okCaps.min_image_count + 1)
    ∧ (0 < okCaps.max_image_count →
      okCaps.min_image_count ≤ okCaps.max_image_count →
      okCaps.min_image_count ≤ swap_chain_image_count okCaps ∧
      swap_chain_image_count okCaps ≤ okCaps.max_image_count) :=
  C10_image_count okCaps (by norm_num [okCaps])

end TwoDee
